import Mathlib

/-
  Verification development for the Mobius front-end.

  The definitions below are a shallow embedding of the JavaScript sources:
  * `src/mobius/www/static/app/services.js` — the `Providers` websocket
    channel service: `send_request`, `sock_open`, `sock_message`,
    `sock_close`, `init`;
  * the upload-form controller file — `max_file_size`, `validate_file`,
    and the `UploadModalCtrl` handler of the broadcast event named
    with the word progress.

  Conventions of the embedding:
  * JSON values are the inductive `Json`; the browser primitive
    `JSON.stringify` is modelled by `JSON_stringify` (integer numbers,
    the common escape sequences).  The browser primitive `JSON.parse`
    can fail on arbitrary input, so it is passed around abstractly as a
    function `String → Option Json`, `none` meaning the primitive throws.
  * The mutable variables captured by the service closure
    (`request_queue`, `callbacks`) together with the socket observables
    (`readyState`, the ordered transcript of transmitted frames, the
    console log) form the state record `Channel`.
  * Callbacks are opaque identifiers of type `κ`; invoking a callback is
    recorded as a pair (callback, argument) in an invocation list.
  * The browser event loop is single threaded, so every handler is a
    pure state transformer and transmissions are synchronous.
-/

namespace Mobius

/-- A JSON value as produced by the application (numbers restricted to
integers, which covers every literal occurring in the sources). -/
inductive Json where
  | null
  | bool (b : Bool)
  | num (n : Int)
  | str (s : String)
  | arr (elems : List Json)
  | obj (members : List (String × Json))
deriving Repr

/-- Escaping of a single character inside a JSON string literal,
as performed by the browser primitive `JSON.stringify`. -/
def escapeJsonChar (c : Char) : String :=
  if c = '"' then "\\\""
  else if c = '\\' then "\\\\"
  else if c = '\n' then "\\n"
  else if c = '\t' then "\\t"
  else if c = '\r' then "\\r"
  else String.singleton c

/-- A JSON string literal: surrounding quotes plus escaping. -/
def JSON_escapeString (s : String) : String :=
  "\"" ++ String.join (s.toList.map escapeJsonChar) ++ "\""

mutual

/-- Model of the browser primitive `JSON.stringify` on `Json` values. -/
def JSON_stringify : Json → String
  | .null => "null"
  | .bool true => "true"
  | .bool false => "false"
  | .num n => toString n
  | .str s => JSON_escapeString s
  | .arr elems => "[" ++ stringifyElems elems ++ "]"
  | .obj members => "\x7b" ++ stringifyMembers members ++ "\x7d"

/-- Comma-separated serialization of array elements. -/
def stringifyElems : List Json → String
  | [] => ""
  | [x] => JSON_stringify x
  | x :: y :: xs => JSON_stringify x ++ "," ++ stringifyElems (y :: xs)

/-- Comma-separated serialization of object members. -/
def stringifyMembers : List (String × Json) → String
  | [] => ""
  | [(k, v)] => JSON_escapeString k ++ ":" ++ JSON_stringify v
  | (k, v) :: m :: ms =>
      JSON_escapeString k ++ ":" ++ JSON_stringify v ++ "," ++
        stringifyMembers (m :: ms)

end

/-- The state owned by one `Providers` channel instance (services.js):
the closure variables `request_queue` and `callbacks`, the captured
`ws_url`, and the observable effects on the underlying socket — its
`readyState` (0 CONNECTING, 1 OPEN, 2 CLOSING, 3 CLOSED), the ordered
transcript `sent` of frames given to `_web_sock.send`, and the console
log.  `κ` is the type of callback identifiers. -/
structure Channel (κ : Type) where
  ws_url : String
  readyState : Nat
  request_queue : List Json
  callbacks : List κ
  sent : List String
  log : List String
deriving Repr

/-- `self.send_request` (services.js lines 28–37): if the socket's
`readyState` is not 1 (OPEN) the request is pushed onto
`request_queue`; otherwise it is serialized with `JSON.stringify` and
transmitted at once. -/
def send_request (st : Channel κ) (request : Json) : Channel κ :=
  if st.readyState ≠ 1 then
    { st with request_queue := st.request_queue ++ [request] }
  else
    { st with sent := st.sent ++ [JSON_stringify request] }

/-- `sock_open` (services.js lines 45–51): iterate over `request_queue`
in order, transmitting `JSON.stringify(request)` for each entry, then
set `request_queue.length = 0`. -/
def sock_open (st : Channel κ) : Channel κ :=
  { st with
      sent := st.sent ++ st.request_queue.map JSON_stringify,
      request_queue := [] }

/-- `sock_message` (services.js lines 58–63): `JSON.parse(message.data)`
is unguarded — when the primitive throws (modelled by `parse` returning
`none`) the exception propagates out of the handler (`Except.error`) and
nothing further runs; otherwise each callback of `callbacks` is invoked
once, inside `$rootScope.$apply`, with the parsed response.  The handler
assigns to none of the closure variables, so the returned state is the
input state. -/
def sock_message (parse : String → Option Json) (st : Channel κ)
    (data : String) : Except Unit (Channel κ × List (κ × Json)) :=
  match parse data with
  | none => .error ()
  | some response => .ok (st, st.callbacks.map (fun cb => (cb, response)))

/-- `sock_close` (services.js lines 65–67): only writes a console
notice mentioning `self.sock_url()`.  Note that `init` never assigns
`onclose`, so this function is in fact never installed as a handler. -/
def sock_close (st : Channel κ) : Channel κ :=
  { st with
      log := st.log ++ ["Web socket " ++ st.ws_url ++ " is closed."] }

/-- `init` (services.js lines 69–81): creates the socket (a fresh
`WebSocket` starts with `readyState = 0`, empty transcript), installs
`sock_open` and `sock_message` (not `sock_close`), and pushes `on_recv`
onto `callbacks` when it is truthy (`some`). -/
def init (ws_url : String) (on_recv : Option κ) : Channel κ :=
  { ws_url := ws_url
    readyState := 0
    request_queue := []
    callbacks :=
      match on_recv with
      | some cb => [cb]
      | none => []
    sent := []
    log := [] }

/-- The events a channel instance can experience after construction:
a `send_request` call from a client, and the socket firing its open,
message or close event. -/
inductive SockEvent where
  | send (r : Json)
  | opened
  | message (data : String)
  | closeFired
deriving Repr

/-- One browser event-loop step on a channel.  The browser sets
`readyState` to 1 before firing `onopen` (which is `sock_open`), and to
3 when the connection closes; `init` installs no `onclose` handler, so a
close event changes only `readyState`.  A message event runs
`sock_message`, whose only effects are callback invocations (and a
propagated exception on a parse failure) — the channel state is
unchanged either way. -/
def step (parse : String → Option Json) (st : Channel κ) :
    SockEvent → Channel κ
  | .send r => send_request st r
  | .opened => sock_open { st with readyState := 1 }
  | .message data =>
      match sock_message parse st data with
      | .ok (st', _) => st'
      | .error _ => st
  | .closeFired => { st with readyState := 3 }

/-- A selected browser `File` object as seen by `validate_file`: only
its `size` property is consulted, and the code guards for it being
`undefined` (`none`). -/
structure FileObj where
  size : Option Nat
deriving Repr

/-- The slice of the `UploadFormCtrl` scope that `validate_file` reads
and writes: the selected file (possibly `undefined`), the inline error
text, and the tooltip flag. -/
structure UploadScope where
  object_file : Option FileObj
  object_file_error : String
  show_object_error : Bool
deriving Repr

/-- `var max_file_size = 60 * 1024 * 1024;` from `UploadFormCtrl`. -/
def max_file_size : Nat := 60 * 1024 * 1024

/-- `$scope.validate_file` from `UploadFormCtrl`:
returns the updated scope paired with the value the `$timeout` callback
is scheduled to assign to `show_object_error` (`none` when the function
returned early and scheduled nothing).

Follows the source line by line: early return when `object_file` is
undefined; otherwise clear `object_file_error`, set `show_tooltip`,
and when `size` is defined and exceeds `max_file_size` install the
message built from `((max_file_size / 1024) / 1024)` and flag the
tooltip; finally `$timeout` schedules `show_object_error := show_tooltip`. -/
def validate_file (s : UploadScope) : UploadScope × Option Bool :=
  match s.object_file with
  | none => (s, none)
  | some f =>
      let s₁ := { s with object_file_error := "" }
      match f.size with
      | some file_size =>
          if file_size > max_file_size then
            ({ s₁ with object_file_error :=
                "File is too large. Max: " ++
                  toString ((max_file_size / 1024) / 1024) ++ "MB" },
             some true)
          else
            (s₁, some false)
      | none => (s₁, some false)

/-- The `UploadModalCtrl` scope: the displayed percent.  The modal
instance is external; whether the handler called
`$uibModalInstance.close()` is reported separately. -/
structure ModalState where
  progress : Int
deriving Repr

/-- The `UploadModalCtrl` handler registered with `$scope.$on` for the
broadcast events of the upload: it assigns the received percent to
`$scope.progress` and, when `percent >= 100`, calls
`$uibModalInstance.close()`.  The returned boolean records whether the
close call was made. -/
def on_progress (st : ModalState) (percent : Int) : ModalState × Bool :=
  let st' : ModalState := { st with progress := percent }
  if percent ≥ 100 then (st', true) else (st', false)

/-- Deliver a sequence of broadcast percent values to the modal handler,
collecting for each event whether that event closed the modal. -/
def run_progress (st : ModalState) : List Int → ModalState × List Bool
  | [] => (st, [])
  | p :: ps =>
      let r := on_progress st p
      let rest := run_progress r.1 ps
      (rest.1, r.2 :: rest.2)

/-! ### Helper lemmas about the channel -/

lemma send_request_not_open (st : Channel κ) (r : Json)
    (h : st.readyState ≠ 1) :
    send_request st r = { st with request_queue := st.request_queue ++ [r] } := by
  simp [send_request, h]

lemma send_request_readyState (st : Channel κ) (r : Json) :
    (send_request st r).readyState = st.readyState := by
  unfold send_request
  split <;> rfl

lemma foldl_send_request_not_open (rs : List Json) :
    ∀ st : Channel κ, st.readyState ≠ 1 →
      rs.foldl send_request st
        = { st with request_queue := st.request_queue ++ rs } := by
  induction rs with
  | nil => intro st _; simp
  | cons r rs ih =>
      intro st h
      rw [List.foldl_cons, send_request_not_open st r h, ih _ (by simpa using h)]
      simp

/-! ### The claims about the channel -/

/-- Claim C1: every sequence of `send_request` calls issued on a freshly
constructed channel (whose socket is still CONNECTING, hence not open)
is flushed by `sock_open` in exactly the enqueue order — the transcript
of transmitted frames is the stringification of the requests in call
order — and afterwards the pending queue is empty. -/
theorem C1_open_flushes_fifo (u : String) (cb : Option Nat) (rs : List Json) :
    (sock_open (rs.foldl send_request (init u cb))).sent
        = rs.map JSON_stringify ∧
    (sock_open (rs.foldl send_request (init u cb))).request_queue = [] := by
  have h : (init u cb : Channel Nat).readyState ≠ 1 := by simp [init]
  rw [foldl_send_request_not_open rs _ h]
  simp [sock_open, init]

/-- Claim C3: `send_request` transmits the JSON-serialized request
immediately and leaves the queue untouched exactly when
`readyState = 1`, and otherwise appends the request to the pending
queue and transmits nothing (the full state records on both sides show
no other field changes). -/
theorem C3_send_request_dichotomy (st : Channel Nat) (r : Json) :
    send_request st r =
      if st.readyState = 1 then
        { st with sent := st.sent ++ [JSON_stringify r] }
      else
        { st with request_queue := st.request_queue ++ [r] } := by
  unfold send_request
  by_cases h : st.readyState = 1 <;> simp [h]

/-- Claim C2: when the inbound frame parses, `sock_message` invokes
every callback of the current listener list exactly once (the invoked
callbacks, in order, are exactly `st.callbacks`), each with the same
parsed payload, and leaves the channel state unchanged. -/
theorem C2_message_fanout (parse : String → Option Json) (st : Channel Nat)
    (data : String) (response : Json) (h : parse data = some response) :
    ∃ invocations,
      sock_message parse st data = .ok (st, invocations) ∧
      invocations.map Prod.fst = st.callbacks ∧
      ∀ p ∈ invocations, p.2 = response := by
  refine ⟨st.callbacks.map (fun cb => (cb, response)), ?_, ?_, ?_⟩
  · simp [sock_message, h]
  · rw [List.map_map]
    exact List.map_id st.callbacks
  · intro p hp
    simp only [List.mem_map] at hp
    obtain ⟨cb, _, rfl⟩ := hp
    rfl

/-- Witness for C2 on the channel of `TestControl` (one listener) and a
frame that parses to the number 7. -/
theorem C2_message_fanout_witness :
    ∃ invocations,
      sock_message (fun _ => some (Json.num 7))
          (init "provider_request" (some 0)) "7"
        = .ok (init "provider_request" (some 0), invocations) ∧
      invocations.map Prod.fst
        = (init "provider_request" (some 0) : Channel Nat).callbacks ∧
      ∀ p ∈ invocations, p.2 = Json.num 7 :=
  C2_message_fanout (fun _ => some (Json.num 7))
    (init "provider_request" (some 0)) "7" (Json.num 7) rfl

/-- Claim C4: when the inbound frame does not parse as JSON, the
unguarded `JSON.parse` throws, the exception propagates out of
`sock_message`, and no listener is invoked (no invocation list is
produced). -/
theorem C4_malformed_message_raises (parse : String → Option Json)
    (st : Channel Nat) (data : String) (h : parse data = none) :
    sock_message parse st data = .error () := by
  simp [sock_message, h]

/-- Witness for C4: a parse primitive that rejects the concrete frame. -/
theorem C4_malformed_message_raises_witness :
    sock_message (fun _ => none) (init "provider_request" (some 0))
        "not json" = .error () :=
  C4_malformed_message_raises (fun _ => none)
    (init "provider_request" (some 0)) "not json" rfl

/-- Claim C5: the listener list is populated only at construction —
`init` leaves exactly one callback for a truthy `on_recv` and zero for a
falsy one, and `send_request`, `sock_open`, the message event and
`sock_close` all leave `callbacks` unchanged. -/
theorem C5_callbacks_fixed_at_construction (u : String) (cb : Nat)
    (parse : String → Option Json) (st : Channel Nat) :
    (init u (some cb)).callbacks = [cb] ∧
    (init u (none : Option Nat)).callbacks = [] ∧
    (∀ r, (send_request st r).callbacks = st.callbacks) ∧
    (sock_open st).callbacks = st.callbacks ∧
    (∀ data, (step parse st (.message data)).callbacks = st.callbacks) ∧
    (sock_close st).callbacks = st.callbacks := by
  refine ⟨rfl, rfl, ?_, rfl, ?_, rfl⟩
  · intro r
    unfold send_request
    split <;> rfl
  · intro data
    rcases h : parse data with _ | v <;> simp [step, sock_message, h]

/-- One non-open event keeps the socket non-open, transmits nothing and
keeps every queued request queued. -/
lemma step_no_open_preserved (parse : String → Option Json)
    (st : Channel Nat) (e : SockEvent) (he : e ≠ .opened)
    (h1 : st.readyState ≠ 1) :
    (step parse st e).readyState ≠ 1 ∧
    (step parse st e).sent = st.sent ∧
    ∀ r ∈ st.request_queue, r ∈ (step parse st e).request_queue := by
  cases e with
  | send r =>
      simp only [step]
      rw [send_request_not_open st r h1]
      exact ⟨h1, rfl, fun r' hr => List.mem_append_left _ hr⟩
  | opened => exact absurd rfl he
  | message data =>
      have hst : step parse st (.message data) = st := by
        simp only [step]
        rcases h : parse data with _ | v <;> simp [sock_message, h]
      rw [hst]
      exact ⟨h1, rfl, fun r hr => hr⟩
  | closeFired =>
      refine ⟨by simp [step], by simp [step], fun r hr => ?_⟩
      simpa [step] using hr

/-- A run of events that never contains the open event transmits
nothing and keeps every queued request queued. -/
lemma foldl_step_no_open (parse : String → Option Json)
    (evts : List SockEvent) :
    ∀ st : Channel Nat, SockEvent.opened ∉ evts → st.readyState ≠ 1 →
      (evts.foldl (step parse) st).sent = st.sent ∧
      (evts.foldl (step parse) st).readyState ≠ 1 ∧
      ∀ r ∈ st.request_queue,
        r ∈ (evts.foldl (step parse) st).request_queue := by
  induction evts with
  | nil => exact fun st _ h1 => ⟨rfl, h1, fun r hr => hr⟩
  | cons e evts ih =>
      intro st hno h1
      have he : e ≠ .opened := fun h => hno (h ▸ List.mem_cons_self _ _)
      have hstep := step_no_open_preserved parse st e he h1
      have hrest := ih (step parse st e)
        (fun h => hno (List.mem_cons_of_mem _ h)) hstep.1
      exact ⟨hrest.1.trans hstep.2.1, hrest.2.1,
        fun r hr => hrest.2.2 r (hstep.2.2 r hr)⟩

/-- Claim C6: once the socket is closing or closed (`readyState` 2 or
3), `send_request` still appends the request to the pending queue —
it neither raises nor discards, and transmits nothing — and under any
further events among which the open event never fires (the browser
never reopens a closed socket, and `sock_open` is installed only as
`onopen`), the request is still in the queue and the transcript of
transmitted frames has not grown: the request is never transmitted and
never reported as failed. -/
theorem C6_send_after_close_stays_queued (parse : String → Option Json)
    (st : Channel Nat) (r : Json)
    (hclosed : st.readyState = 2 ∨ st.readyState = 3)
    (evts : List SockEvent) (hno : SockEvent.opened ∉ evts) :
    (send_request st r).request_queue = st.request_queue ++ [r] ∧
    (send_request st r).sent = st.sent ∧
    r ∈ (evts.foldl (step parse) (send_request st r)).request_queue ∧
    (evts.foldl (step parse) (send_request st r)).sent = st.sent := by
  have h1 : st.readyState ≠ 1 := by
    rcases hclosed with h | h <;> simp [h]
  rw [send_request_not_open st r h1]
  have hfold := foldl_step_no_open parse evts
    { st with request_queue := st.request_queue ++ [r] } hno h1
  exact ⟨rfl, rfl, hfold.2.2 r (by simp), hfold.1⟩

/-- Witness for C6: a CLOSED socket, one orphaned request, then a close
and a message event. -/
theorem C6_send_after_close_stays_queued_witness :
    (send_request (⟨"p", 3, [], [], [], []⟩ : Channel Nat)
        (Json.num 1)).request_queue = [Json.num 1] ∧
    (send_request (⟨"p", 3, [], [], [], []⟩ : Channel Nat)
        (Json.num 1)).sent = [] ∧
    Json.num 1 ∈ (List.foldl (step (fun _ => none))
        (send_request (⟨"p", 3, [], [], [], []⟩ : Channel Nat) (Json.num 1))
        [SockEvent.closeFired, SockEvent.message "x"]).request_queue ∧
    (List.foldl (step (fun _ => none))
        (send_request (⟨"p", 3, [], [], [], []⟩ : Channel Nat) (Json.num 1))
        [SockEvent.closeFired, SockEvent.message "x"]).sent = [] :=
  C6_send_after_close_stays_queued (fun _ => none)
    ⟨"p", 3, [], [], [], []⟩ (Json.num 1) (Or.inr rfl)
    [SockEvent.closeFired, SockEvent.message "x"] (by simp)

/-! ### The claims about the upload controllers -/

/-- Claim C7: the client-side ceiling is `60 * 1024 * 1024` bytes, and
for a selected file with a defined size, `validate_file` flags the
oversize error — message included — and schedules the tooltip exactly
when the size exceeds the ceiling; at or below the ceiling it leaves no
size error and schedules the tooltip off. -/
theorem C7_file_size_ceiling (s : UploadScope) (f : FileObj) (sz : Nat)
    (hf : s.object_file = some f) (hsz : f.size = some sz) :
    max_file_size = 60 * 1024 * 1024 ∧
    (sz > max_file_size →
      (validate_file s).1.object_file_error
          = "File is too large. Max: 60MB" ∧
      (validate_file s).2 = some true) ∧
    (sz ≤ max_file_size →
      (validate_file s).1.object_file_error = "" ∧
      (validate_file s).2 = some false) := by
  refine ⟨rfl, ?_, ?_⟩
  · intro hgt
    simp only [validate_file, hf, hsz]
    rw [if_pos hgt]
    exact ⟨rfl, rfl⟩
  · intro hle
    simp only [validate_file, hf, hsz]
    rw [if_neg (not_lt.mpr hle)]
    exact ⟨rfl, rfl⟩

/-- Witness for C7: a 61MB file trips the validation. -/
theorem C7_file_size_ceiling_witness :
    (validate_file
        ⟨some ⟨some (61 * 1024 * 1024)⟩, "", false⟩).1.object_file_error
        = "File is too large. Max: 60MB" ∧
    (validate_file ⟨some ⟨some (61 * 1024 * 1024)⟩, "", false⟩).2
        = some true :=
  (C7_file_size_ceiling ⟨some ⟨some (61 * 1024 * 1024)⟩, "", false⟩
      ⟨some (61 * 1024 * 1024)⟩ (61 * 1024 * 1024) rfl rfl).2.1
    (by decide)

/-- Claim C8: the modal's handler of a broadcast progress event stores
the received percent in `$scope.progress` and calls the modal-instance
close exactly when the percent is at least 100; in particular the event
sequence 0, 50, 100 closes the modal exactly at the third event. -/
theorem C8_progress_closes_at_100 (st : ModalState) (percent : Int) :
    (on_progress st percent).1.progress = percent ∧
    ((on_progress st percent).2 = true ↔ percent ≥ 100) ∧
    (run_progress ⟨0⟩ [0, 50, 100]).2 = [false, false, true] := by
  refine ⟨?_, ?_, ?_⟩
  · unfold on_progress
    split <;> rfl
  · unfold on_progress
    split <;> rename_i h <;> simp [h]
  · decide

/-- Claim C10: when no file is selected (`object_file` undefined),
`validate_file` returns at once: the scope is returned unchanged —
`object_file_error` and `show_object_error` keep their previous
values — and no `$timeout` assignment is scheduled. -/
theorem C10_validate_file_undefined_noop (s : UploadScope)
    (h : s.object_file = none) :
    validate_file s = (s, none) := by
  simp [validate_file, h]

/-- Witness for C10: a stale error message from a previous file is not
cleared. -/
theorem C10_validate_file_undefined_noop_witness :
    validate_file ⟨none, "File is too large. Max: 60MB", true⟩
      = (⟨none, "File is too large. Max: 60MB", true⟩, none) :=
  C10_validate_file_undefined_noop
    ⟨none, "File is too large. Max: 60MB", true⟩ rfl

end Mobius
